import Mathlib

/-!
Verification of the Task Time Manager backend (`src/main.py`, `src/schemas.py`).

The service is a FastAPI application over a MongoDB-like document store with two
collections, `task` and `timeentry`.  We model the store shallowly: each
collection is a Lean list of documents in insertion ("natural") order, document
ids (`ObjectId`) are natural numbers whose canonical string form is 24 lowercase
hex digits, and timestamps (`datetime` values, always UTC) are natural numbers
counting microseconds since the Unix epoch (Python datetimes have microsecond
resolution).  Each HTTP endpoint becomes a function from the store (plus the
values returned by the `datetime.now(timezone.utc)` calls it makes, passed as
explicit arguments, one per call site in call order) to a result paired with the
resulting store.  `HTTPException` and pydantic validation failures become the
`ApiError` error type; since a raised exception aborts the handler, the store
returned alongside an error reflects exactly the writes performed before the
raise.
-/

namespace TaskTime

/-- An error escaping an endpoint handler: `http s d` models
`HTTPException(status_code=s, detail=d)`; `validation m` models a pydantic
`ValidationError` raised while constructing a model. -/
inductive ApiError where
  | http (status : Nat) (detail : String)
  | validation (msg : String)
deriving Repr, DecidableEq

/-- A stored document of the `task` collection.  Fields are those of the
pydantic `Task` model in `src/schemas.py` plus the Mongo `_id` and the
`updated_at` field that `update_task` adds via `$set`. -/
structure Task where
  _id : Nat
  title : String
  description : Option String
  status : String
  estimated_minutes : Option Int
  labels : List String
  updated_at : Option Nat
deriving Repr, DecidableEq

/-- A stored document of the `timeentry` collection.  Fields are those of the
pydantic `Timeentry` model in `src/schemas.py` plus the Mongo `_id` and the
`updated_at` field that `stop_timer` adds via `$set`. -/
structure TimeEntry where
  _id : Nat
  task_id : String
  start_time : Option Nat
  end_time : Option Nat
  duration_sec : Option Int
  note : Option String
  is_running : Bool
  date : Option String
  updated_at : Option Nat
deriving Repr, DecidableEq

/-- The document store: the two collections in natural (insertion) order plus
the next fresh id the store will assign. -/
structure Store where
  tasks : List Task
  entries : List TimeEntry
  nextId : Nat
deriving Repr, DecidableEq

/-! ### ObjectId strings

`bson.ObjectId(s)` accepts exactly the 24-character hexadecimal strings;
`str(oid)` is the 24-digit lowercase hex form. -/

def isHexDig (c : Char) : Bool :=
  ('0' ≤ c && c ≤ '9') || ('a' ≤ c && c ≤ 'f') || ('A' ≤ c && c ≤ 'F')

def hexDigVal (c : Char) : Nat :=
  if '0' ≤ c && c ≤ '9' then c.toNat - '0'.toNat
  else if 'a' ≤ c && c ≤ 'f' then c.toNat - 'a'.toNat + 10
  else if 'A' ≤ c && c ≤ 'F' then c.toNat - 'A'.toNat + 10
  else 0

/-- Validity of an ObjectId string, as `bson.ObjectId.is_valid` decides it. -/
def isValidObjectId (s : String) : Bool :=
  s.length == 24 && s.toList.all isHexDig

/-- The numeric value of a valid ObjectId string. -/
def parseHex (s : String) : Nat :=
  s.toList.foldl (fun a c => a * 16 + hexDigVal c) 0

def toHexDig (n : Nat) : Char :=
  if n < 10 then Char.ofNat ('0'.toNat + n) else Char.ofNat ('a'.toNat + n - 10)

/-- Canonical string form `str(ObjectId)`: 24 lowercase hex digits. -/
def stringOfObjectId (n : Nat) : String :=
  ⟨(List.range 24).map fun i => toHexDig (n / 16 ^ (23 - i) % 16)⟩

/-- Helper `to_object_id` (main.py lines 27–31): convert a path id to an `ObjectId`,
turning any parse failure into a 400 `HTTPException`. -/
def to_object_id (id_str : String) : Except ApiError Nat :=
  if isValidObjectId id_str then .ok (parseHex id_str) else .error (.http 400 "Invalid id")

/-! ### Time arithmetic

`int((b - a).total_seconds())` on two microsecond instants: the timedelta in
seconds, truncated toward zero (Python `int()` on a float). -/

/-- Python `int((delta microseconds).total_seconds())`: truncation toward
zero of `d / 10^6`. -/
def pyTruncSec (d : Int) : Int :=
  if 0 ≤ d then Int.ofNat (d.toNat / 1000000) else - Int.ofNat ((-d).toNat / 1000000)

def microPerDay : Nat := 86400000000

/-- Civil date (year, month, day) from days since the Unix epoch
(proleptic Gregorian calendar, as Python `datetime.date` computes it). -/
def civilFromDays (z0 : Nat) : Nat × Nat × Nat :=
  let z := z0 + 719468
  let era := z / 146097
  let doe := z % 146097
  let yoe := (doe - doe / 1460 + doe / 36524 - doe / 146096) / 365
  let y := yoe + era * 400
  let doy := doe - (365 * yoe + yoe / 4 - yoe / 100)
  let mp := (5 * doy + 2) / 153
  let d := doy - (153 * mp + 2) / 5 + 1
  let m := if mp < 10 then mp + 3 else mp - 9
  (if m ≤ 2 then y + 1 else y, m, d)

def pad2 (n : Nat) : String := if n < 10 then "0" ++ toString n else toString n

def pad4 (n : Nat) : String :=
  if n < 10 then "000" ++ toString n
  else if n < 100 then "00" ++ toString n
  else if n < 1000 then "0" ++ toString n
  else toString n

/-- Python `when.date().isoformat()` on a UTC instant in microseconds. -/
def isoDateOfMicro (t : Nat) : String :=
  let c := civilFromDays (t / microPerDay)
  pad4 c.1 ++ "-" ++ pad2 c.2.1 ++ "-" ++ pad2 c.2.2

/-! ### Pydantic validation

The request models (`TaskCreate`, `TimeEntryStart`, `ManualLog`) impose no
range constraints; the stored-document models do: `Task.estimated_minutes`
and `Timeentry.duration_sec` both carry `ge=0`.  `Task.title` is a plain
`str` with no non-emptiness constraint. -/

/-- Pydantic `Field(None, ge=0)` check on `Timeentry.duration_sec`. -/
def timeentryDurationOk : Option Int → Bool
  | some d => decide (0 ≤ d)
  | none => true

/-- Pydantic `Field(None, ge=0)` check on `Task.estimated_minutes`. -/
def taskEstimatedOk : Option Int → Bool
  | some m => decide (0 ≤ m)
  | none => true

/-- Python `payload.labels or []`: an absent or empty (falsy) list gives `[]`. -/
def pyListOr : Option (List String) → List String
  | none => []
  | some l => if l.isEmpty then [] else l

/-! ### Store primitives

`db` and the helpers `create_document` / `get_documents` are imported from
`database.py`, which is not part of `src/`; the spec declares the document
store an external collaborator with generic create/read/update/delete
capabilities, so those two helpers are modelled from the spec.  The direct
pymongo collection calls (`find_one`, `update_one`, `update_many`,
`delete_one`, `delete_many`, `aggregate`) are modelled by their documented
semantics over the list of documents in natural order. -/

/-- Modelled from the spec: `database.create_document("task", model)`
(database.py is absent from src/) inserts the document into the `task`
collection, assigning it a fresh id, and returns that id. -/
def create_document_task (s : Store) (t : Task) : Nat × Store :=
  (s.nextId,
   { s with tasks := s.tasks ++ [{ t with _id := s.nextId }], nextId := s.nextId + 1 })

/-- Modelled from the spec: `database.create_document("timeentry", model)`
(database.py is absent from src/) inserts the document into the `timeentry`
collection, assigning it a fresh id, and returns that id. -/
def create_document_timeentry (s : Store) (e : TimeEntry) : Nat × Store :=
  (s.nextId,
   { s with entries := s.entries ++ [{ e with _id := s.nextId }], nextId := s.nextId + 1 })

/-- Modelled from the spec: `database.get_documents(collection, filter)`
(database.py is absent from src/) returns all documents of the collection
matching the filter, in the store's natural order. -/
def get_documents_timeentry (s : Store) (p : TimeEntry → Bool) : List TimeEntry :=
  s.entries.filter p

/-- pymongo `update_one`: update the first document matching the filter. -/
def update_one_entry (p : TimeEntry → Bool) (f : TimeEntry → TimeEntry) :
    List TimeEntry → List TimeEntry
  | [] => []
  | e :: es => if p e then f e :: es else e :: update_one_entry p f es

/-- pymongo `update_many`: update every document matching the filter. -/
def update_many_entries (p : TimeEntry → Bool) (f : TimeEntry → TimeEntry)
    (es : List TimeEntry) : List TimeEntry :=
  es.map fun e => if p e then f e else e

/-- pymongo `delete_one`: remove the first document matching the filter. -/
def delete_one_task (p : Task → Bool) : List Task → List Task
  | [] => []
  | t :: ts => if p t then ts else t :: delete_one_task p ts

/-- pymongo `update_one` on the task collection. -/
def update_one_task (p : Task → Bool) (f : Task → Task) : List Task → List Task
  | [] => []
  | t :: ts => if p t then f t :: ts else t :: update_one_task p f ts

/-! ### Task endpoints -/

/-- The `TaskCreate` request model (main.py lines 103–107). -/
structure TaskCreate where
  title : String
  description : Option String
  estimated_minutes : Option Int
  labels : Option (List String)
deriving Repr, DecidableEq

/-- Endpoint `create_task` (main.py lines 110–120): build the pydantic `Task`
(validation: `estimated_minutes` must be `ge=0` when present; `title` is an
arbitrary string), persist it with `status="active"` and
`labels = payload.labels or []`, then re-read and return the stored
document. -/
def create_task (s : Store) (payload : TaskCreate) :
    Except ApiError (Option Task) × Store :=
  if taskEstimatedOk payload.estimated_minutes then
    let task : Task :=
      { _id := 0, title := payload.title, description := payload.description,
        status := "active", estimated_minutes := payload.estimated_minutes,
        labels := pyListOr payload.labels, updated_at := none }
    let r := create_document_task s task
    (.ok (r.2.tasks.find? fun t => t._id == r.1), r.2)
  else
    (.error (.validation "estimated_minutes"), s)

/-- Endpoint `list_tasks` (main.py lines 123–126). -/
def list_tasks (s : Store) : List Task :=
  s.tasks

/-- A recognised field of the dynamic PATCH payload.  The handler pops the
`_id`/`id` keys before applying `$set`, so id overwrites never reach the
store; the schemaless store would retain unrecognised keys, which no claim
concerns, so only the schema fields are represented. -/
inductive PatchField where
  | title (v : String)
  | description (v : Option String)
  | status (v : String)
  | estimated_minutes (v : Option Int)
  | labels (v : List String)
deriving Repr, DecidableEq

def applyPatchField (t : Task) : PatchField → Task
  | .title v => { t with title := v }
  | .description v => { t with description := v }
  | .status v => { t with status := v }
  | .estimated_minutes v => { t with estimated_minutes := v }
  | .labels v => { t with labels := v }

/-- Endpoint `update_task` (main.py lines 129–139): 400 on a malformed id; `$set` the
payload plus `updated_at = now` on the matched task; 404 when no task
matched; return the re-read document.  (In the source the no-op `update_one`
runs before the `matched_count` check; the two orders give the same
result.) -/
def update_task (s : Store) (task_id : String) (payload : List PatchField) (now : Nat) :
    Except ApiError (Option Task) × Store :=
  match to_object_id task_id with
  | .error e => (.error e, s)
  | .ok oid =>
    if s.tasks.any (fun t => t._id == oid) then
      let tasks := update_one_task (fun t => t._id == oid)
        (fun t => { payload.foldl applyPatchField t with updated_at := some now }) s.tasks
      let s' := { s with tasks := tasks }
      (.ok (s'.tasks.find? fun t => t._id == oid), s')
    else
      (.error (.http 404 "Task not found"), s)

/-- Endpoint `delete_task` (main.py lines 142–148): 400 on a malformed id; `delete_one`
the task by `_id`; `delete_many` the time entries with this `task_id` (the
raw path string) and `is_running = True`; return success. -/
def delete_task (s : Store) (task_id : String) : Except ApiError Bool × Store :=
  match to_object_id task_id with
  | .error e => (.error e, s)
  | .ok oid =>
    let tasks := delete_one_task (fun t => t._id == oid) s.tasks
    let entries := s.entries.filter fun e => !(e.task_id == task_id && e.is_running)
    (.ok true, { s with tasks := tasks, entries := entries })

/-! ### Timer endpoints -/

/-- The filter `{"task_id": task_id, "is_running": True}`. -/
def runningFor (task_id : String) (e : TimeEntry) : Bool :=
  e.task_id == task_id && e.is_running

/-- The `$set` of `start_timer`'s `update_many`: stop a running entry without
backfilling `duration_sec`. -/
def forceStop (now : Nat) (e : TimeEntry) : TimeEntry :=
  { e with is_running := false, end_time := some now }

/-- Endpoint `start_timer` (main.py lines 159–177): `update_many` stops every running
entry for this `task_id` (setting `end_time = now₁`, leaving `duration_sec`
untouched), then a new running entry with `start_time = now₂` is built
(pydantic validation of `Timeentry`: `duration_sec` is `None` here),
persisted and re-read.  `now₁`, `now₂` are the two `datetime.now` calls in
order. -/
def start_timer (s : Store) (task_id : String) (note : Option String) (now₁ now₂ : Nat) :
    Except ApiError (Option TimeEntry) × Store :=
  let stopped := update_many_entries (runningFor task_id) (forceStop now₁) s.entries
  let s₁ : Store := { s with entries := stopped }
  if timeentryDurationOk none then
    let entry : TimeEntry :=
      { _id := 0, task_id := task_id, start_time := some now₂, end_time := none,
        duration_sec := none, note := note, is_running := true, date := none,
        updated_at := none }
    let r := create_document_timeentry s₁ entry
    (.ok (r.2.entries.find? fun e => e._id == r.1), r.2)
  else
    (.error (.validation "duration_sec"), s₁)

/-- Endpoint `stop_timer` (main.py lines 180–199): find the running entry for this
task (400 if none), require its `start_time` (500 otherwise), compute
`duration_sec = int((now₁ - start_time).total_seconds())`, `$set` the stop
fields with `updated_at = now₂` via `update_one` on its `_id`, and return the
re-read document. -/
def stop_timer (s : Store) (task_id : String) (now₁ now₂ : Nat) :
    Except ApiError (Option TimeEntry) × Store :=
  match s.entries.find? (runningFor task_id) with
  | none => (.error (.http 400 "No running timer for this task"), s)
  | some running =>
    match running.start_time with
    | none => (.error (.http 500 "Running entry missing start_time"), s)
    | some st =>
      let duration := pyTruncSec (Int.ofNat now₁ - Int.ofNat st)
      let entries := update_one_entry (fun e => e._id == running._id)
        (fun e => { e with
          is_running := false
          end_time := some now₁
          duration_sec := some duration
          updated_at := some now₂ }) s.entries
      let s' := { s with entries := entries }
      (.ok (s'.entries.find? fun e => e._id == running._id), s')

/-- Endpoint `manual_log` (main.py lines 202–222): `when = payload.when or now`; build
a never-running `Timeentry` with the caller's `duration_sec` (pydantic
validation: `ge=0`) and `date = when.date().isoformat()`; persist and
re-read. -/
def manual_log (s : Store) (task_id : String) (duration_sec : Int) (note : Option String)
    (when : Option Nat) (now : Nat) : Except ApiError (Option TimeEntry) × Store :=
  let w := when.getD now
  if timeentryDurationOk (some duration_sec) then
    let entry : TimeEntry :=
      { _id := 0, task_id := task_id, start_time := none, end_time := none,
        duration_sec := some duration_sec, note := note, is_running := false,
        date := some (isoDateOfMicro w), updated_at := none }
    let r := create_document_timeentry s entry
    (.ok (r.2.entries.find? fun e => e._id == r.1), r.2)
  else
    (.error (.validation "duration_sec"), s)

/-- Endpoint `list_time_entries` (main.py lines 225–228). -/
def list_time_entries (s : Store) (task_id : String) : List TimeEntry :=
  get_documents_timeentry s (fun e => e.task_id == task_id)

/-! ### Report summary -/

/-- The `$group` accumulator of the aggregation pipeline: add `d` to the
group keyed `t`, creating the group if absent.  Mongo leaves the group order
unspecified; we fix first-encounter order. -/
def addToGroups : List (String × Int) → String → Int → List (String × Int)
  | [], t, d => [(t, d)]
  | (k, v) :: gs, t, d =>
    if k == t then (k, v + d) :: gs else (k, v) :: addToGroups gs t d

/-- The pipeline `$match: duration_sec ≠ null` then `$group by task_id,
$sum duration_sec` (main.py lines 234–238). -/
def aggregateDur (es : List TimeEntry) : List (String × Int) :=
  es.foldl
    (fun gs e =>
      match e.duration_sec with
      | some d => addToGroups gs e.task_id d
      | none => gs)
    []

/-- Lookup `db.task.find_one({"_id": ObjectId(task_id)}) if
ObjectId.is_valid(task_id) else None`. -/
def find_one_task_by_oid (tasks : List Task) (task_id : String) : Option Task :=
  if isValidObjectId task_id then tasks.find? (fun t => t._id == parseHex task_id) else none

/-- Title resolution for an aggregated row (main.py lines 246–247): the task
looked up by ObjectId, else the `task_map` built from all tasks keyed by
`str(_id)` (first-wins here; ids are distinct in a real store), else
"Unknown Task". -/
def titleForAggRow (tasks : List Task) (task_id : String) : String :=
  match find_one_task_by_oid tasks task_id with
  | some t => t.title
  | none =>
    match tasks.find? (fun t => stringOfObjectId t._id == task_id) with
    | some t => t.title
    | none => "Unknown Task"

/-- Title resolution for a row created for a running entry (main.py lines
260–261): ObjectId lookup only, defaulting to "Unknown Task". -/
def titleForRunningRow (tasks : List Task) (task_id : String) : String :=
  match find_one_task_by_oid tasks task_id with
  | some t => t.title
  | none => "Unknown Task"

/-- One element of the `items` list returned by `report_summary`. -/
structure SummaryRow where
  task_id : String
  title : String
  total_sec : Int
deriving Repr, DecidableEq

/-- The live contribution of a running entry (main.py line 255):
`int((now - start_time).total_seconds())`, or 0 without a `start_time`. -/
def liveInc (now : Nat) (e : TimeEntry) : Int :=
  match e.start_time with
  | some st => pyTruncSec (Int.ofNat now - Int.ofNat st)
  | none => 0

/-- Add `inc` to the first row with this `task_id` (Python mutates the first
match found by `next`). -/
def bumpFirstRow (task_id : String) (inc : Int) : List SummaryRow → List SummaryRow
  | [] => []
  | r :: rs =>
    if r.task_id == task_id then { r with total_sec := r.total_sec + inc } :: rs
    else r :: bumpFirstRow task_id inc rs

/-- The body of the running-entries loop (main.py lines 253–262): add the
live elapsed seconds to the matching row, or append a new row. -/
def addLiveToRows (now : Nat) (tasks : List Task) (data : List SummaryRow) (e : TimeEntry) :
    List SummaryRow :=
  let inc := liveInc now e
  if data.any (fun d => d.task_id == e.task_id) then
    bumpFirstRow e.task_id inc data
  else
    data ++ [{ task_id := e.task_id, title := titleForRunningRow tasks e.task_id,
               total_sec := inc }]

/-- Endpoint `report_summary` (main.py lines 231–264): aggregate completed durations
per task, resolve titles, then fold every running entry's live elapsed time
into the rows. -/
def report_summary (s : Store) (now : Nat) : List SummaryRow :=
  let agg := aggregateDur s.entries
  let data := agg.map fun g =>
    { task_id := g.1, title := titleForAggRow s.tasks g.1, total_sec := g.2 : SummaryRow }
  let running := s.entries.filter fun e => e.is_running
  running.foldl (addLiveToRows now s.tasks) data

/-! ### Derived descriptions used in the statements -/

/-- The entry `start_timer` inserts, as stored with its assigned id. -/
def startedEntry (i : Nat) (task_id : String) (note : Option String) (now₂ : Nat) : TimeEntry :=
  { _id := i, task_id := task_id, start_time := some now₂, end_time := none,
    duration_sec := none, note := note, is_running := true, date := none,
    updated_at := none }

/-- An empty store whose next fresh id is 1. -/
def store0 : Store := { tasks := [], entries := [], nextId := 1 }

/-- The `total_sec` of the summary row for a given task id, if that row
exists. -/
def rowTotal (rows : List SummaryRow) (tid : String) : Option Int :=
  (rows.find? fun r => r.task_id == tid).map fun r => r.total_sec

/-- The total of an aggregation group, if the group exists. -/
def groupTotal (gs : List (String × Int)) (tid : String) : Option Int :=
  (gs.find? fun g => g.1 == tid).map fun g => g.2

/-- Following the claim wording (refinement side of C3): the sum of
`duration_sec` over all TimeEntry documents of the task with non-null
`duration_sec`. -/
def specCompletedSum (es : List TimeEntry) (tid : String) : Int :=
  ((es.filter fun e => e.task_id == tid && e.duration_sec.isSome).map
    fun e => e.duration_sec.getD 0).sum

/-- Following the claim wording (refinement side of C3): the total live
elapsed seconds, `now - start_time` (0 when `start_time` is missing), over
the running entries of the task. -/
def specLiveSum (es : List TimeEntry) (now : Nat) (tid : String) : Int :=
  ((es.filter fun e => e.task_id == tid && e.is_running).map (liveInc now)).sum

/-! ## Helper lemmas about the timer engine -/

theorem runningFor_forceStop (tid : String) (now : Nat) (e : TimeEntry) :
    runningFor tid (forceStop now e) = false := by
  simp [runningFor, forceStop]

theorem filter_update_many_eq_nil (p : TimeEntry → Bool) (f : TimeEntry → TimeEntry)
    (hf : ∀ e, p (f e) = false) (es : List TimeEntry) :
    (update_many_entries p f es).filter p = [] := by
  induction es with
  | nil => rfl
  | cons e es ih =>
    by_cases h : p e <;>
      simp_all [update_many_entries, List.filter_cons, h, hf e]

theorem not_running_of_mem_update_many (tid : String) (now : Nat) (es : List TimeEntry) :
    ∀ e ∈ update_many_entries (runningFor tid) (forceStop now) es,
      runningFor tid e = false := by
  intro e he
  have h := filter_update_many_eq_nil (runningFor tid) (forceStop now)
    (runningFor_forceStop tid now) es
  have := List.filter_eq_nil_iff.1 h e he
  simpa using this

/-- The value of `start_timer`, written out: it always succeeds, stops every
running entry for the task and appends the new running entry with the fresh
id. -/
theorem start_timer_eq (s : Store) (tid : String) (note : Option String) (a b : Nat) :
    start_timer s tid note a b =
      (.ok ((update_many_entries (runningFor tid) (forceStop a) s.entries
              ++ [startedEntry s.nextId tid note b]).find? fun e => e._id == s.nextId),
       { tasks := s.tasks,
         entries := update_many_entries (runningFor tid) (forceStop a) s.entries
                      ++ [startedEntry s.nextId tid note b],
         nextId := s.nextId + 1 }) := rfl

theorem runningFor_startedEntry (i : Nat) (tid : String) (note : Option String) (b : Nat) :
    runningFor tid (startedEntry i tid note b) = true := by
  simp [runningFor, startedEntry]

/-- After any `start_timer`, the running entries for the task are exactly the
newly inserted one. -/
theorem running_filter_after_start (s : Store) (tid : String) (note : Option String)
    (a b : Nat) :
    (start_timer s tid note a b).2.entries.filter (runningFor tid)
      = [startedEntry s.nextId tid note b] := by
  rw [start_timer_eq]
  simp [List.filter_append,
    filter_update_many_eq_nil (runningFor tid) (forceStop a) (runningFor_forceStop tid a),
    runningFor_startedEntry]

/-! ## Claims -/

/-- Claim C4: for every task `T` with no running time entry, `stop_timer`
fails with the 400 "No running timer for this task" error and leaves the
store unchanged. -/
theorem claim_C4 (s : Store) (T : String) (now₁ now₂ : Nat)
    (h : ∀ e ∈ s.entries, ¬(e.task_id = T ∧ e.is_running = true)) :
    stop_timer s T now₁ now₂ = (.error (.http 400 "No running timer for this task"), s) := by
  have hf : s.entries.find? (runningFor T) = none := by
    rw [List.find?_eq_none]
    intro e he
    have he' := h e he
    simp only [runningFor, Bool.and_eq_true, beq_iff_eq]
    exact fun hc => he' ⟨hc.1, hc.2⟩
  simp [stop_timer, hf]

/-- Witness for C4 at a concrete empty store. -/
theorem claim_C4_witness :
    stop_timer store0 "t" 5 6 = (.error (.http 400 "No running timer for this task"), store0) :=
  claim_C4 store0 "t" 5 6 (by intro e he; cases he)

/-- Claim C1: after `start(T)` twice, exactly one entry for `T` is running —
the one inserted by the second start — and the second start stopped the
previously running entry by setting `is_running := false` and
`end_time := now` while leaving its `duration_sec` null. -/
theorem claim_C1 (s : Store) (T : String) (n₁ n₂ : Option String) (ta tb tc td : Nat) :
    ((start_timer (start_timer s T n₁ ta tb).2 T n₂ tc td).2.entries.filter
        (runningFor T)).length = 1
    ∧ (start_timer (start_timer s T n₁ ta tb).2 T n₂ tc td).2.entries.filter (runningFor T)
        = [startedEntry (start_timer s T n₁ ta tb).2.nextId T n₂ td]
    ∧ ∀ e ∈ (start_timer s T n₁ ta tb).2.entries, runningFor T e = true →
        e.duration_sec = none
        ∧ { e with is_running := false, end_time := some tc }
            ∈ (start_timer (start_timer s T n₁ ta tb).2 T n₂ tc td).2.entries := by
  refine ⟨?_, running_filter_after_start _ T n₂ tc td, ?_⟩
  · rw [running_filter_after_start]
    rfl
  · intro e he hrun
    have hs1 : (start_timer s T n₁ ta tb).2.entries
        = update_many_entries (runningFor T) (forceStop ta) s.entries
            ++ [startedEntry s.nextId T n₁ tb] := by
      rw [start_timer_eq]
    rw [hs1] at he
    rcases List.mem_append.1 he with h1 | h2
    · rw [not_running_of_mem_update_many T ta s.entries e h1] at hrun
      cases hrun
    · have he1 : e = startedEntry s.nextId T n₁ tb := by simpa using h2
      subst he1
      refine ⟨rfl, ?_⟩
      have hmem : startedEntry s.nextId T n₁ tb ∈ (start_timer s T n₁ ta tb).2.entries := by
        rw [hs1]
        exact List.mem_append.2 (Or.inr (List.mem_singleton.2 rfl))
      have hmap := List.mem_map_of_mem
        (fun e => if runningFor T e then forceStop tc e else e) hmem
      rw [start_timer_eq]
      refine List.mem_append.2 (Or.inl ?_)
      simpa [update_many_entries, runningFor_startedEntry, forceStop] using hmap

/-- Witness for C1: concrete double start on the empty store. -/
theorem claim_C1_witness :
    (startedEntry 1 "t" none 11).duration_sec = none
    ∧ { startedEntry 1 "t" none 11 with is_running := false, end_time := some 12 }
        ∈ (start_timer (start_timer store0 "t" none 10 11).2 "t" none 12 13).2.entries :=
  (claim_C1 store0 "t" none none 10 11 12 13).2.2 (startedEntry 1 "t" none 11)
    (by decide) (by decide)

/-! ## Helper lemmas about `update_one` -/

theorem mem_update_one_entry_of_not (p : TimeEntry → Bool) (f : TimeEntry → TimeEntry)
    (es : List TimeEntry) (e : TimeEntry) (he : e ∈ es) (hp : p e = false) :
    e ∈ update_one_entry p f es := by
  induction es with
  | nil => cases he
  | cons x xs ih =>
    rcases List.mem_cons.1 he with rfl | hx
    · simp [update_one_entry, hp]
    · by_cases h : p x
      · simp only [update_one_entry, h, if_true]
        exact List.mem_cons.2 (Or.inr hx)
      · simp only [update_one_entry, h, if_false, Bool.false_eq_true]
        exact List.mem_cons.2 (Or.inr (ih hx))

/-- Mongo `update_one` on the unique document with a given id followed by
`find_one` on that id returns the updated document. -/
theorem find?_update_one_entry_self (es : List TimeEntry) (r : TimeEntry)
    (f : TimeEntry → TimeEntry) (hnd : (es.map fun e => e._id).Nodup) (hr : r ∈ es)
    (hf : (f r)._id = r._id) :
    (update_one_entry (fun e => e._id == r._id) f es).find? (fun e => e._id == r._id)
      = some (f r) := by
  induction es with
  | nil => cases hr
  | cons x xs ih =>
    rw [List.map_cons, List.nodup_cons] at hnd
    rcases List.mem_cons.1 hr with rfl | hx
    · simp only [update_one_entry, beq_self_eq_true, if_true]
      rw [List.find?_cons]
      simp [hf]
    · have hx_id : x._id ≠ r._id := by
        intro hEq
        exact hnd.1 (hEq ▸ List.mem_map_of_mem (fun e => e._id) hx)
      simp only [update_one_entry, beq_eq_false_iff_ne.2 hx_id, if_false, Bool.false_eq_true]
      rw [List.find?_cons]
      simp only [beq_eq_false_iff_ne.2 hx_id]
      exact ih hnd.2 hx

/-- The entry as `stop_timer` updates it: stopped, `end_time = t1`,
`duration_sec = ⌊(t1 - t0) / 10^6⌋` whole seconds, `updated_at = t2`. -/
def stoppedDoc (r : TimeEntry) (t0 t1 t2 : Nat) : TimeEntry :=
  { r with
    is_running := false
    end_time := some t1
    duration_sec := some (Int.ofNat ((t1 - t0) / 1000000))
    updated_at := some t2 }

theorem pyTruncSec_of_le {t0 t1 : Nat} (hle : t0 ≤ t1) :
    pyTruncSec (Int.ofNat t1 - Int.ofNat t0) = Int.ofNat ((t1 - t0) / 1000000) := by
  have h0 : (0 : Int) ≤ Int.ofNat t1 - Int.ofNat t0 :=
    Int.sub_nonneg.2 (Int.ofNat_le.2 hle)
  have hsub : (Int.ofNat t1 - Int.ofNat t0).toNat = t1 - t0 := Int.toNat_sub t1 t0
  rw [pyTruncSec, if_pos h0, hsub]

/-- Claim C2: stopping a task whose running entry started at `t0` (with
`start_time` set), at time `t1 ≥ t0`, updates exactly that entry to
`is_running = false`, `end_time = t1`, `updated_at = t2`,
`duration_sec = ⌊t1 - t0⌋` in whole seconds, and returns the updated
entry. -/
theorem claim_C2 (s : Store) (T : String) (t0 t1 t2 : Nat) (r : TimeEntry)
    (hnd : (s.entries.map fun e => e._id).Nodup)
    (hfind : s.entries.find? (runningFor T) = some r)
    (hst : r.start_time = some t0)
    (hle : t0 ≤ t1) :
    (stop_timer s T t1 t2).1 = .ok (some (stoppedDoc r t0 t1 t2))
    ∧ (stop_timer s T t1 t2).2.entries.find? (fun e => e._id == r._id)
        = some (stoppedDoc r t0 t1 t2) := by
  have hr : r ∈ s.entries := List.mem_of_find?_eq_some hfind
  have hfr : (stoppedDoc r t0 t1 t2)._id = r._id := rfl
  have key := find?_update_one_entry_self s.entries r
    (fun e => { e with
      is_running := false
      end_time := some t1
      duration_sec := some (Int.ofNat ((t1 - t0) / 1000000))
      updated_at := some t2 }) hnd hr rfl
  constructor
  · simp only [stop_timer, hfind, hst]
    rw [pyTruncSec_of_le hle]
    exact congrArg Except.ok key
  · simp only [stop_timer, hfind, hst]
    rw [pyTruncSec_of_le hle]
    exact key

/-- Witness for C2: a store with one running entry, stopped 100.5 seconds
after it started (duration truncates to 100). -/
theorem claim_C2_witness :
    (stop_timer
        { tasks := [], nextId := 3,
          entries := [{ _id := 2, task_id := "t", start_time := some 1000000,
                        end_time := none, duration_sec := none, note := none,
                        is_running := true, date := none, updated_at := none }] }
        "t" 101500000 101600000).1
      = .ok (some { _id := 2, task_id := "t", start_time := some 1000000,
                    end_time := some 101500000, duration_sec := some 100, note := none,
                    is_running := false, date := none, updated_at := some 101600000 }) :=
  (claim_C2
    { tasks := [], nextId := 3,
      entries := [{ _id := 2, task_id := "t", start_time := some 1000000,
                    end_time := none, duration_sec := none, note := none,
                    is_running := true, date := none, updated_at := none }] }
    "t" 1000000 101500000 101600000
    { _id := 2, task_id := "t", start_time := some 1000000, end_time := none,
      duration_sec := none, note := none, is_running := true, date := none,
      updated_at := none }
    (by decide) (by decide) (by decide) (by decide)).1

/-- Claim C10: `start_timer` stops all running entries for the task in one
bulk update, so even from a corrupt state exactly one entry for the task is
running afterwards; `stop_timer` only updates the single entry `find_one`
returns, leaving any additional running entries for the task running. -/
theorem claim_C10 :
    (∀ (s : Store) (T : String) (note : Option String) (a b : Nat),
      ((start_timer s T note a b).2.entries.filter (runningFor T)).length = 1)
    ∧ ∀ (s : Store) (T : String) (a b : Nat) (r e' : TimeEntry),
        (s.entries.map fun e => e._id).Nodup →
        s.entries.find? (runningFor T) = some r →
        r.start_time.isSome = true →
        e' ∈ s.entries → e' ≠ r → runningFor T e' = true →
          e' ∈ (stop_timer s T a b).2.entries ∧ e'.is_running = true := by
  constructor
  · intro s T note a b
    rw [running_filter_after_start]
    rfl
  · intro s T a b r e' hnd hfind hst he' hne hrun
    obtain ⟨st, hst'⟩ := Option.isSome_iff_exists.1 hst
    have hid : e'._id ≠ r._id := by
      intro hEq
      exact hne (List.inj_on_of_nodup_map hnd he' (List.mem_of_find?_eq_some hfind) hEq)
    refine ⟨?_, ?_⟩
    · simp only [stop_timer, hfind, hst']
      exact mem_update_one_entry_of_not _ _ s.entries e' he' (beq_eq_false_iff_ne.2 hid)
    · have h2 : e'.task_id = T ∧ e'.is_running = true := by
        simpa [runningFor, Bool.and_eq_true] using hrun
      exact h2.2

/-- Witness for C10: a corrupt store with two running entries for the same
task; stopping leaves the second one running. -/
theorem claim_C10_witness :
    { _id := 2, task_id := "t", start_time := some 7, end_time := none,
      duration_sec := none, note := none, is_running := true, date := none,
      updated_at := none : TimeEntry }
      ∈ (stop_timer
          { tasks := [], nextId := 3,
            entries := [{ _id := 1, task_id := "t", start_time := some 5, end_time := none,
                          duration_sec := none, note := none, is_running := true,
                          date := none, updated_at := none },
                        { _id := 2, task_id := "t", start_time := some 7, end_time := none,
                          duration_sec := none, note := none, is_running := true,
                          date := none, updated_at := none }] }
          "t" 10 11).2.entries
      ∧ ({ _id := 2, task_id := "t", start_time := some 7, end_time := none,
           duration_sec := none, note := none, is_running := true, date := none,
           updated_at := none : TimeEntry }).is_running = true :=
  claim_C10.2
    { tasks := [], nextId := 3,
      entries := [{ _id := 1, task_id := "t", start_time := some 5, end_time := none,
                    duration_sec := none, note := none, is_running := true,
                    date := none, updated_at := none },
                  { _id := 2, task_id := "t", start_time := some 7, end_time := none,
                    duration_sec := none, note := none, is_running := true,
                    date := none, updated_at := none }] }
    "t" 10 11
    { _id := 1, task_id := "t", start_time := some 5, end_time := none,
      duration_sec := none, note := none, is_running := true, date := none,
      updated_at := none }
    { _id := 2, task_id := "t", start_time := some 7, end_time := none,
      duration_sec := none, note := none, is_running := true, date := none,
      updated_at := none }
    (by decide) (by decide) (by decide) (by decide) (by decide) (by decide)

/-! ## Task creation -/

theorem pyListOr_some (l : List String) : pyListOr (some l) = l := by
  cases l <;> simp [pyListOr]

/-- The success case of `create_task`: with a valid `estimated_minutes` and a
fresh next id, the task is stored and returned. -/
theorem create_task_ok (s : Store) (p : TaskCreate)
    (hv : taskEstimatedOk p.estimated_minutes = true)
    (hfresh : ∀ t ∈ s.tasks, t._id ≠ s.nextId) :
    create_task s p =
      (.ok (some { _id := s.nextId, title := p.title, description := p.description,
                   status := "active", estimated_minutes := p.estimated_minutes,
                   labels := pyListOr p.labels, updated_at := none }),
       { tasks := s.tasks ++ [{ _id := s.nextId, title := p.title,
                                description := p.description, status := "active",
                                estimated_minutes := p.estimated_minutes,
                                labels := pyListOr p.labels, updated_at := none }],
         entries := s.entries, nextId := s.nextId + 1 }) := by
  have hnone : s.tasks.find? (fun t => t._id == s.nextId) = none := by
    rw [List.find?_eq_none]
    intro t ht
    simpa using hfresh t ht
  simp only [create_task, hv, if_true, create_document_task]
  rw [List.find?_append, hnone]
  simp

/-- Counterexample to C5 as stated: an empty `title` is not rejected — the
pydantic `Task` model has no non-emptiness constraint, so `create_task`
succeeds and stores the task with `title = ""`. -/
theorem claim_C5_counterexample :
    create_task store0 { title := "", description := none,
                         estimated_minutes := none, labels := none }
      = (.ok (some { _id := 1, title := "", description := none, status := "active",
                     estimated_minutes := none, labels := [], updated_at := none }),
         { tasks := [{ _id := 1, title := "", description := none, status := "active",
                       estimated_minutes := none, labels := [], updated_at := none }],
           entries := [], nextId := 2 }) := rfl

/-- Claim C5, amended: `create_task` accepts any `title` (including the empty
string — there is no non-emptiness validation); it validates
`estimated_minutes ≥ 0` when present, failing with a `ValidationError` and
leaving the store unchanged otherwise; on success it persists the task with
`status = "active"` and `labels = []` when omitted, and returns the stored
document. -/
theorem claim_C5_amended (s : Store) (p : TaskCreate) :
    (∀ m : Int, p.estimated_minutes = some m → m < 0 →
        create_task s p = (.error (.validation "estimated_minutes"), s))
    ∧ (taskEstimatedOk p.estimated_minutes = true →
        (∀ t ∈ s.tasks, t._id ≠ s.nextId) →
        create_task s p =
          (.ok (some { _id := s.nextId, title := p.title, description := p.description,
                       status := "active", estimated_minutes := p.estimated_minutes,
                       labels := pyListOr p.labels, updated_at := none }),
           { tasks := s.tasks ++ [{ _id := s.nextId, title := p.title,
                                    description := p.description, status := "active",
                                    estimated_minutes := p.estimated_minutes,
                                    labels := pyListOr p.labels, updated_at := none }],
             entries := s.entries, nextId := s.nextId + 1 }))
    ∧ pyListOr none = [] := by
  refine ⟨?_, fun hv hfresh => create_task_ok s p hv hfresh, rfl⟩
  intro m hm hneg
  have hv : taskEstimatedOk p.estimated_minutes = false := by
    rw [hm]
    simpa [taskEstimatedOk] using Int.not_le.2 hneg
  simp [create_task, hv]

/-- Witness for the amended C5: a negative `estimated_minutes` is rejected
with a `ValidationError` on the empty store. -/
theorem claim_C5_amended_witness :
    create_task store0 { title := "x", description := none,
                         estimated_minutes := some (-5), labels := none }
      = (.error (.validation "estimated_minutes"), store0) :=
  (claim_C5_amended store0
    { title := "x", description := none, estimated_minutes := some (-5), labels := none }).1
    (-5) rfl (by decide)

/-- Claim C9: creating a task with any label sequence stores and returns the
labels unchanged and in the same order, and re-fetching (GET /tasks) yields
the stored document with that same sequence. -/
theorem claim_C9 (s : Store) (title : String) (desc : Option String) (labels : List String)
    (hfresh : ∀ t ∈ s.tasks, t._id ≠ s.nextId) :
    (create_task s { title := title, description := desc, estimated_minutes := none,
                     labels := some labels }).1
      = .ok (some { _id := s.nextId, title := title, description := desc,
                    status := "active", estimated_minutes := none, labels := labels,
                    updated_at := none })
    ∧ { _id := s.nextId, title := title, description := desc, status := "active",
        estimated_minutes := none, labels := labels, updated_at := none }
        ∈ list_tasks (create_task s { title := title, description := desc,
                                      estimated_minutes := none,
                                      labels := some labels }).2 := by
  have h := create_task_ok s
    { title := title, description := desc, estimated_minutes := none, labels := some labels }
    rfl hfresh
  rw [pyListOr_some] at h
  rw [h]
  exact ⟨rfl, List.mem_append.2 (Or.inr (List.mem_singleton.2 rfl))⟩

/-- Witness for C9 with labels `["a", "b"]` on the empty store. -/
theorem claim_C9_witness :
    (create_task store0 { title := "task", description := none, estimated_minutes := none,
                          labels := some ["a", "b"] }).1
      = .ok (some { _id := 1, title := "task", description := none, status := "active",
                    estimated_minutes := none, labels := ["a", "b"], updated_at := none })
    ∧ { _id := 1, title := "task", description := none, status := "active",
        estimated_minutes := none, labels := ["a", "b"], updated_at := none : Task }
        ∈ list_tasks (create_task store0 { title := "task", description := none,
                                           estimated_minutes := none,
                                           labels := some ["a", "b"] }).2 :=
  claim_C9 store0 "task" none ["a", "b"] (by intro t ht; cases ht)

/-! ## Manual log -/

theorem find?_entries_append_fresh (es : List TimeEntry) (doc : TimeEntry) (i : Nat)
    (hi : doc._id = i) (hfresh : ∀ e ∈ es, e._id ≠ i) :
    (es ++ [doc]).find? (fun e => e._id == i) = some doc := by
  have hnone : es.find? (fun e => e._id == i) = none := by
    rw [List.find?_eq_none]
    intro e he
    simpa using hfresh e he
  rw [List.find?_append, hnone]
  simp [hi]

/-- Claim C7: `manual_log` with a non-negative integer duration creates an
entry with that `duration_sec`, `is_running = false`, null `start_time` and
`end_time`, and `date` equal to the YYYY-MM-DD portion of `when` (or of now
when `when` is omitted); a negative `duration_sec` fails validation. -/
theorem claim_C7 (s : Store) (T : String) (d : Int) (note : Option String) (w now : Nat) :
    (d < 0 → ∀ w' : Option Nat,
        manual_log s T d note w' now = (.error (.validation "duration_sec"), s))
    ∧ (0 ≤ d → (∀ e ∈ s.entries, e._id ≠ s.nextId) →
        manual_log s T d note (some w) now =
          (.ok (some { _id := s.nextId, task_id := T, start_time := none, end_time := none,
                       duration_sec := some d, note := note, is_running := false,
                       date := some (isoDateOfMicro w), updated_at := none }),
           { tasks := s.tasks,
             entries := s.entries ++
               [{ _id := s.nextId, task_id := T, start_time := none, end_time := none,
                  duration_sec := some d, note := note, is_running := false,
                  date := some (isoDateOfMicro w), updated_at := none }],
             nextId := s.nextId + 1 })
        ∧ manual_log s T d note none now =
          (.ok (some { _id := s.nextId, task_id := T, start_time := none, end_time := none,
                       duration_sec := some d, note := note, is_running := false,
                       date := some (isoDateOfMicro now), updated_at := none }),
           { tasks := s.tasks,
             entries := s.entries ++
               [{ _id := s.nextId, task_id := T, start_time := none, end_time := none,
                  duration_sec := some d, note := note, is_running := false,
                  date := some (isoDateOfMicro now), updated_at := none }],
             nextId := s.nextId + 1 })) := by
  constructor
  · intro hneg w'
    have hv : timeentryDurationOk (some d) = false := by
      simpa [timeentryDurationOk] using Int.not_le.2 hneg
    simp [manual_log, hv]
  · intro hd hfresh
    have hv : timeentryDurationOk (some d) = true := by
      simpa [timeentryDurationOk] using hd
    constructor
    · simp only [manual_log, hv, if_true, create_document_timeentry, Option.getD_some]
      rw [find?_entries_append_fresh _ _ s.nextId rfl hfresh]
    · simp only [manual_log, hv, if_true, create_document_timeentry, Option.getD_none]
      rw [find?_entries_append_fresh _ _ s.nextId rfl hfresh]

/-- Witness for C7: `manual_log(T, 120, when = 2024-01-05)` (day 19727 since
the epoch) yields a completed entry with `duration_sec = 120` and
`date = "2024-01-05"`. -/
theorem claim_C7_witness :
    manual_log store0 "t" 120 none (some (19727 * microPerDay)) 0 =
      (.ok (some { _id := 1, task_id := "t", start_time := none, end_time := none,
                   duration_sec := some 120, note := none, is_running := false,
                   date := some "2024-01-05", updated_at := none }),
       { tasks := [],
         entries := [{ _id := 1, task_id := "t", start_time := none, end_time := none,
                       duration_sec := some 120, note := none, is_running := false,
                       date := some "2024-01-05", updated_at := none }],
         nextId := 2 }) :=
  ((claim_C7 store0 "t" 120 none (19727 * microPerDay) 0).2 (by decide)
    (by intro e he; cases he)).1

/-! ## Task deletion -/

theorem mem_delete_one_task_of_not (p : Task → Bool) (ts : List Task) (t : Task)
    (ht : t ∈ ts) (hp : p t = false) : t ∈ delete_one_task p ts := by
  induction ts with
  | nil => cases ht
  | cons x xs ih =>
    rcases List.mem_cons.1 ht with rfl | hx
    · simp [delete_one_task, hp]
    · by_cases h : p x
      · simpa [delete_one_task, h] using hx
      · simp only [delete_one_task, h, if_false, Bool.false_eq_true]
        exact List.mem_cons.2 (Or.inr (ih hx))

theorem not_mem_delete_one_task_by_id (i : Nat) (ts : List Task) (t : Task)
    (hnd : (ts.map fun t => t._id).Nodup) (ht : t ∈ ts) (hid : t._id = i) :
    t ∉ delete_one_task (fun t => t._id == i) ts := by
  induction ts with
  | nil => cases ht
  | cons x xs ih =>
    rw [List.map_cons, List.nodup_cons] at hnd
    by_cases h : x._id = i
    · simp only [delete_one_task, beq_iff_eq.2 h, if_true]
      intro htx
      exact hnd.1 (h ▸ hid ▸ List.mem_map_of_mem (fun t => t._id) htx)
    · have hbx : (x._id == i) = false := beq_eq_false_iff_ne.2 h
      simp only [delete_one_task, hbx, if_false, Bool.false_eq_true]
      have htxs : t ∈ xs := by
        rcases List.mem_cons.1 ht with rfl | hx
        · exact absurd hid h
        · exact hx
      intro hmem
      rcases List.mem_cons.1 hmem with rfl | hx
      · exact h hid
      · exact ih hnd.2 htxs hx

/-- Claim C8: `delete_task(T)` succeeds (also for a nonexistent id), removes
the task with id `T`, deletes every running time entry for `T`, and leaves
every non-running entry for `T` (and entries of other tasks) unchanged. -/
theorem claim_C8 (s : Store) (T : String) (hvalid : isValidObjectId T = true) :
    (delete_task s T).1 = .ok true
    ∧ (delete_task s T).2.entries
        = s.entries.filter (fun e => !(e.task_id == T && e.is_running))
    ∧ (∀ e ∈ s.entries, e.task_id = T → e.is_running = true →
        e ∉ (delete_task s T).2.entries)
    ∧ (∀ e ∈ s.entries, ¬(e.task_id = T ∧ e.is_running = true) →
        e ∈ (delete_task s T).2.entries)
    ∧ ((s.tasks.map fun t => t._id).Nodup →
        ∀ t ∈ s.tasks, t._id = parseHex T → t ∉ (delete_task s T).2.tasks)
    ∧ (∀ t ∈ s.tasks, t._id ≠ parseHex T → t ∈ (delete_task s T).2.tasks) := by
  have hdel : delete_task s T =
      (.ok true,
       { tasks := delete_one_task (fun t => t._id == parseHex T) s.tasks,
         entries := s.entries.filter (fun e => !(e.task_id == T && e.is_running)),
         nextId := s.nextId }) := by
    simp [delete_task, to_object_id, hvalid]
  rw [hdel]
  refine ⟨rfl, rfl, ?_, ?_, ?_, ?_⟩
  · intro e _ hT hrun hmem
    have := (List.mem_filter.1 hmem).2
    simp [hT, hrun] at this
  · intro e he hne
    refine List.mem_filter.2 ⟨he, ?_⟩
    simp only [Bool.not_eq_eq_eq_not, Bool.not_true, Bool.and_eq_false_imp, beq_iff_eq]
    intro hT
    by_contra hrun
    exact hne ⟨hT, by simpa using hrun⟩
  · intro hnd t ht hid
    exact not_mem_delete_one_task_by_id (parseHex T) s.tasks t hnd ht hid
  · intro t ht hid
    exact mem_delete_one_task_of_not _ s.tasks t ht (beq_eq_false_iff_ne.2 hid)

/-- Witness for C8: deleting a concrete task removes it and its running
entry while keeping its completed entry. -/
theorem claim_C8_witness :
    ((delete_task
        { tasks := [{ _id := 1, title := "Alpha", description := none, status := "active",
                      estimated_minutes := none, labels := [], updated_at := none }],
          entries := [{ _id := 2, task_id := stringOfObjectId 1, start_time := some 0,
                        end_time := none, duration_sec := none, note := none,
                        is_running := true, date := none, updated_at := none },
                      { _id := 4, task_id := stringOfObjectId 1, start_time := some 0,
                        end_time := some 9000000, duration_sec := some 9, note := none,
                        is_running := false, date := none, updated_at := none }],
          nextId := 5 }
        (stringOfObjectId 1)).1 = .ok true)
    ∧ ({ _id := 4, task_id := stringOfObjectId 1, start_time := some 0,
         end_time := some 9000000, duration_sec := some 9, note := none,
         is_running := false, date := none, updated_at := none : TimeEntry }
        ∈ (delete_task
            { tasks := [{ _id := 1, title := "Alpha", description := none, status := "active",
                          estimated_minutes := none, labels := [], updated_at := none }],
              entries := [{ _id := 2, task_id := stringOfObjectId 1, start_time := some 0,
                            end_time := none, duration_sec := none, note := none,
                            is_running := true, date := none, updated_at := none },
                          { _id := 4, task_id := stringOfObjectId 1, start_time := some 0,
                            end_time := some 9000000, duration_sec := some 9, note := none,
                            is_running := false, date := none, updated_at := none }],
              nextId := 5 }
            (stringOfObjectId 1)).2.entries) := by
  constructor
  · exact (claim_C8 _ (stringOfObjectId 1) (by decide)).1
  · exact (claim_C8 _ (stringOfObjectId 1) (by decide)).2.2.2.1 _ (by decide) (by decide)

/-! ## Malformed identifiers -/

/-- Counterexample to C6 as stated: the timer-start endpoint performs no id
validation at all — on a malformed id it succeeds (HTTP 200) and inserts an
entry whose `task_id` is the malformed string, instead of yielding a
400-class id-format error. -/
theorem claim_C6_counterexample :
    isValidObjectId "bad-id" = false
    ∧ start_timer store0 "bad-id" none 5 6
        = (.ok (some (startedEntry 1 "bad-id" none 6)),
           { tasks := [], entries := [startedEntry 1 "bad-id" none 6], nextId := 2 }) :=
  ⟨by decide, rfl⟩

/-- Claim C6, amended: only `PATCH /tasks/{id}` and `DELETE /tasks/{id}`
validate the identifier, yielding the 400 "Invalid id" error on a malformed
id and leaving the store unchanged; the timer start/stop, manual-log and
time-listing endpoints never check the id format — start and (valid-duration)
manual log succeed, stop yields either its 400 no-running-timer error or
succeeds (in stores whose running entries carry a `start_time`), and listing
returns normally — so no endpoint produces a 500-class crash from a
malformed id, but no id-format error is raised on those paths either. -/
theorem claim_C6_amended (s : Store) (id : String) (payload : List PatchField)
    (now : Nat) (note : Option String) (a b : Nat) (d : Int) (w : Option Nat)
    (nowml : Nat) (hid : isValidObjectId id = false) :
    update_task s id payload now = (.error (.http 400 "Invalid id"), s)
    ∧ delete_task s id = (.error (.http 400 "Invalid id"), s)
    ∧ (∃ doc s', start_timer s id note a b = (.ok doc, s'))
    ∧ (0 ≤ d → ∃ doc s', manual_log s id d note w nowml = (.ok doc, s'))
    ∧ ((∀ e ∈ s.entries, e.is_running = true → e.start_time.isSome = true) →
        stop_timer s id a b = (.error (.http 400 "No running timer for this task"), s)
        ∨ ∃ doc s', stop_timer s id a b = (.ok doc, s'))
    ∧ list_time_entries s id = s.entries.filter (fun e => e.task_id == id) := by
  refine ⟨?_, ?_, ?_, ?_, ?_, rfl⟩
  · simp [update_task, to_object_id, hid]
  · simp [delete_task, to_object_id, hid]
  · exact ⟨_, _, start_timer_eq s id note a b⟩
  · intro hd
    have hv : timeentryDurationOk (some d) = true := by
      simpa [timeentryDurationOk] using hd
    simp only [manual_log, hv, if_true]
    exact ⟨_, _, rfl⟩
  · intro hwf
    cases hfind : s.entries.find? (runningFor id) with
    | none =>
      left
      simp [stop_timer, hfind]
    | some r =>
      right
      have hrun : runningFor id r = true := List.find?_some hfind
      have hmem : r ∈ s.entries := List.mem_of_find?_eq_some hfind
      have hisrun : r.is_running = true := by
        have h2 : r.task_id = id ∧ r.is_running = true := by
          simpa [runningFor, Bool.and_eq_true] using hrun
        exact h2.2
      obtain ⟨st, hst⟩ := Option.isSome_iff_exists.1 (hwf r hmem hisrun)
      simp only [stop_timer, hfind, hst]
      exact ⟨_, _, rfl⟩

/-- Witness for the amended C6: a malformed id on PATCH and DELETE gives the
400 "Invalid id" error and leaves the empty store unchanged. -/
theorem claim_C6_amended_witness :
    update_task store0 "bad-id" [] 0 = (.error (.http 400 "Invalid id"), store0)
    ∧ delete_task store0 "bad-id" = (.error (.http 400 "Invalid id"), store0) :=
  ⟨(claim_C6_amended store0 "bad-id" [] 0 none 0 0 0 none 0 (by decide)).1,
   (claim_C6_amended store0 "bad-id" [] 0 none 0 0 0 none 0 (by decide)).2.1⟩

/-! ## Report summary: aggregation lemmas -/

theorem specCompletedSum_cons (e : TimeEntry) (es : List TimeEntry) (tid : String) :
    specCompletedSum (e :: es) tid =
      (if e.task_id == tid && e.duration_sec.isSome then e.duration_sec.getD 0 else 0)
      + specCompletedSum es tid := by
  by_cases h : (e.task_id == tid && e.duration_sec.isSome) = true <;>
    simp [specCompletedSum, List.filter_cons, h]

theorem specCompletedSum_eq_zero (es : List TimeEntry) (tid : String)
    (h : es.any (fun e => e.task_id == tid && e.duration_sec.isSome) = false) :
    specCompletedSum es tid = 0 := by
  have hf : es.filter (fun e => e.task_id == tid && e.duration_sec.isSome) = [] :=
    List.filter_eq_nil_iff.2 (List.any_eq_false.1 h)
  simp [specCompletedSum, hf]

theorem specLiveSum_eq_zero (es : List TimeEntry) (now : Nat) (tid : String)
    (h : es.any (fun e => e.task_id == tid && e.is_running) = false) :
    specLiveSum es now tid = 0 := by
  have hf : es.filter (fun e => e.task_id == tid && e.is_running) = [] :=
    List.filter_eq_nil_iff.2 (List.any_eq_false.1 h)
  simp [specLiveSum, hf]

theorem groupTotal_addToGroups (gs : List (String × Int)) (t : String) (d : Int)
    (tid : String) :
    groupTotal (addToGroups gs t d) tid =
      if t = tid then some ((groupTotal gs tid).getD 0 + d) else groupTotal gs tid := by
  induction gs with
  | nil =>
    by_cases h : t = tid <;> simp [addToGroups, groupTotal, List.find?_cons, h]
  | cons g gs ih =>
    obtain ⟨k, v⟩ := g
    by_cases hkt : k = t
    · subst hkt
      by_cases hktid : k = tid
      · subst hktid
        simp [addToGroups, groupTotal, List.find?_cons]
      · simp [addToGroups, groupTotal, List.find?_cons, hktid,
          beq_eq_false_iff_ne.2 hktid]
    · by_cases hktid : k = tid
      · subst hktid
        have hne : ¬(t = k) := fun h => hkt h.symm
        simp [addToGroups, groupTotal, List.find?_cons, beq_eq_false_iff_ne.2 hkt, hne]
      · simp only [addToGroups, beq_eq_false_iff_ne.2 hkt, if_false, Bool.false_eq_true]
        by_cases httid : t = tid
        · subst httid
          simp only [groupTotal, List.find?_cons, beq_eq_false_iff_ne.2 hktid]
          simpa [groupTotal] using ih
        · simp only [groupTotal, List.find?_cons, beq_eq_false_iff_ne.2 hktid]
          simpa [groupTotal, httid] using ih

/-- The value of a group after folding the aggregation pipeline's step over
the entry list, for an arbitrary initial accumulator. -/
theorem groupTotal_aggFold (es : List TimeEntry) (gs : List (String × Int)) (tid : String) :
    groupTotal
      (es.foldl
        (fun gs e =>
          match e.duration_sec with
          | some d => addToGroups gs e.task_id d
          | none => gs)
        gs) tid =
      if es.any (fun e => e.task_id == tid && e.duration_sec.isSome) then
        some ((groupTotal gs tid).getD 0 + specCompletedSum es tid)
      else groupTotal gs tid := by
  induction es generalizing gs with
  | nil => simp [specCompletedSum]
  | cons e es ih =>
    rw [List.foldl_cons]
    cases hdur : e.duration_sec with
    | none =>
      rw [ih]
      simp [List.any_cons, hdur, specCompletedSum_cons]
    | some d0 =>
      by_cases htid : e.task_id = tid
      · rw [ih, groupTotal_addToGroups]
        rw [if_pos htid]
        have hpred : (e.task_id == tid && e.duration_sec.isSome) = true := by
          simp [htid, hdur]
        by_cases hany : es.any (fun e => e.task_id == tid && e.duration_sec.isSome) = true
        · rw [if_pos hany]
          simp only [List.any_cons, hpred, Bool.true_or, if_true]
          rw [specCompletedSum_cons, hpred]
          simp [hdur, Int.add_assoc]
        · rw [if_neg hany]
          simp only [List.any_cons, hpred, Bool.true_or, if_true]
          rw [specCompletedSum_cons, hpred,
            specCompletedSum_eq_zero es tid (Bool.eq_false_iff.2 hany)]
          simp [hdur]
      · rw [ih, groupTotal_addToGroups, if_neg htid]
        have hpred : (e.task_id == tid && e.duration_sec.isSome) = false := by
          simp [htid]
        simp [List.any_cons, hpred, specCompletedSum_cons]

theorem groupTotal_aggregateDur (es : List TimeEntry) (tid : String) :
    groupTotal (aggregateDur es) tid =
      if es.any (fun e => e.task_id == tid && e.duration_sec.isSome) then
        some (specCompletedSum es tid)
      else none := by
  rw [aggregateDur, groupTotal_aggFold]
  by_cases h : es.any (fun e => e.task_id == tid && e.duration_sec.isSome) = true <;>
    simp [h, groupTotal]

/-! ## Report summary: row lemmas -/

theorem rowTotal_map_agg (gs : List (String × Int)) (tasks : List Task) (tid : String) :
    rowTotal
      (gs.map fun g =>
        { task_id := g.1, title := titleForAggRow tasks g.1, total_sec := g.2 : SummaryRow })
      tid = groupTotal gs tid := by
  induction gs with
  | nil => rfl
  | cons g gs ih =>
    by_cases h : g.1 = tid
    · simp [rowTotal, groupTotal, List.find?_cons, h]
    · simp only [List.map_cons, rowTotal, groupTotal, List.find?_cons,
        beq_eq_false_iff_ne.2 h]
      simpa [rowTotal, groupTotal] using ih

theorem rowTotal_bumpFirstRow (rows : List SummaryRow) (t : String) (inc : Int)
    (tid : String) :
    rowTotal (bumpFirstRow t inc rows) tid =
      if t = tid then (rowTotal rows tid).map (· + inc) else rowTotal rows tid := by
  induction rows with
  | nil => by_cases h : t = tid <;> simp [bumpFirstRow, rowTotal, h]
  | cons r rows ih =>
    by_cases hrt : r.task_id = t
    · by_cases htid : t = tid
      · subst htid
        simp [bumpFirstRow, rowTotal, List.find?_cons, beq_iff_eq.2 hrt, hrt]
      · have hrtid : r.task_id ≠ tid := fun h => htid (hrt ▸ h)
        simp [bumpFirstRow, rowTotal, List.find?_cons, beq_iff_eq.2 hrt,
          beq_eq_false_iff_ne.2 hrtid, htid]
    · by_cases hrtid : r.task_id = tid
      · have hne : ¬(t = tid) := fun h => hrt (hrtid.trans h.symm)
        simp [bumpFirstRow, rowTotal, List.find?_cons, beq_eq_false_iff_ne.2 hrt,
          beq_iff_eq.2 hrtid, hne]
      · simp only [bumpFirstRow, beq_eq_false_iff_ne.2 hrt, if_false, Bool.false_eq_true]
        by_cases htid : t = tid
        · subst htid
          simp only [rowTotal, List.find?_cons, beq_eq_false_iff_ne.2 hrtid]
          simpa [rowTotal] using ih
        · simp only [rowTotal, List.find?_cons, beq_eq_false_iff_ne.2 hrtid]
          simpa [rowTotal, htid] using ih

theorem rowTotal_addLiveToRows (now : Nat) (tasks : List Task) (rows : List SummaryRow)
    (e : TimeEntry) (tid : String) :
    rowTotal (addLiveToRows now tasks rows e) tid =
      if e.task_id = tid then some ((rowTotal rows tid).getD 0 + liveInc now e)
      else rowTotal rows tid := by
  by_cases hany : rows.any (fun d => d.task_id == e.task_id) = true
  · simp only [addLiveToRows, hany, if_true]
    rw [rowTotal_bumpFirstRow]
    by_cases het : e.task_id = tid
    · rw [if_pos het, if_pos het]
      obtain ⟨r0, hr0mem, hr0⟩ := List.any_eq_true.1 hany
      have hsome : (rows.find? fun r => r.task_id == tid).isSome = true := by
        rw [List.find?_isSome]
        exact ⟨r0, hr0mem, by rw [← het]; exact hr0⟩
      obtain ⟨r1, hr1⟩ := Option.isSome_iff_exists.1 hsome
      simp [rowTotal, hr1]
    · rw [if_neg het, if_neg het]
  · have hany' : rows.any (fun d => d.task_id == e.task_id) = false :=
      Bool.eq_false_iff.2 hany
    have hnone : (rows.find? fun r => r.task_id == e.task_id) = none := by
      rw [List.find?_eq_none]
      exact List.any_eq_false.1 hany'
    simp only [addLiveToRows, hany', Bool.false_eq_true, if_false]
    by_cases het : e.task_id = tid
    · subst het
      simp [rowTotal, List.find?_append, List.find?_cons, hnone]
    · simp [rowTotal, List.find?_append, List.find?_cons,
        beq_eq_false_iff_ne.2 het, het, hnone]

theorem rowTotal_foldl_addLive (rs : List TimeEntry) (now : Nat) (tasks : List Task)
    (rows : List SummaryRow) (tid : String) :
    rowTotal (rs.foldl (addLiveToRows now tasks) rows) tid =
      if rs.any (fun e => e.task_id == tid) then
        some ((rowTotal rows tid).getD 0
          + ((rs.filter fun e => e.task_id == tid).map (liveInc now)).sum)
      else rowTotal rows tid := by
  induction rs generalizing rows with
  | nil => simp
  | cons e rs ih =>
    rw [List.foldl_cons, ih]
    by_cases het : e.task_id = tid
    · have hpred : (e.task_id == tid) = true := beq_iff_eq.2 het
      by_cases hany : rs.any (fun e => e.task_id == tid) = true
      · rw [if_pos hany]
        simp only [List.any_cons, hpred, Bool.true_or, if_true]
        rw [rowTotal_addLiveToRows, if_pos het, List.filter_cons, hpred]
        simp [Int.add_assoc]
      · rw [if_neg hany]
        rw [rowTotal_addLiveToRows, if_pos het]
        simp only [List.any_cons, hpred, Bool.true_or, if_true]
        have hsum : ((rs.filter fun e => e.task_id == tid).map (liveInc now)).sum = 0 := by
          have hf : rs.filter (fun e => e.task_id == tid) = [] :=
            List.filter_eq_nil_iff.2 (List.any_eq_false.1 (Bool.eq_false_iff.2 hany))
          simp [hf]
        rw [List.filter_cons, hpred]
        simp [hsum]
    · have hpred : (e.task_id == tid) = false := beq_eq_false_iff_ne.2 het
      rw [rowTotal_addLiveToRows, if_neg het]
      simp [List.any_cons, hpred, List.filter_cons]

theorem any_and_or_split (l : List TimeEntry) (p q r : TimeEntry → Bool) :
    (l.any fun e => p e && (q e || r e))
      = ((l.any fun e => p e && q e) || (l.any fun e => p e && r e)) := by
  induction l with
  | nil => rfl
  | cons e es ih =>
    rw [List.any_cons, List.any_cons, List.any_cons, ih, Bool.and_or_distrib_left]
    cases p e && q e <;> cases p e && r e <;>
      cases es.any (fun e => p e && q e) <;>
      cases es.any (fun e => p e && r e) <;> rfl

theorem any_ext_entries (l : List TimeEntry) (p q : TimeEntry → Bool)
    (h : ∀ e, p e = q e) : l.any p = l.any q := by
  induction l with
  | nil => rfl
  | cons e es ih => simp [List.any_cons, h, ih]

/-- A concrete store for the C3 example: task "Alpha" (id 1) with completed
entries of 100 s and 200 s and a running entry started 50 s before the
report time, plus an orphaned running entry (30 s old) whose task id
resolves to no task. -/
def summaryExampleStore : Store :=
  { tasks := [{ _id := 1, title := "Alpha", description := none, status := "active",
                estimated_minutes := none, labels := [], updated_at := none }],
    entries := [
      { _id := 2, task_id := stringOfObjectId 1, start_time := some 0,
        end_time := some 100000000, duration_sec := some 100, note := none,
        is_running := false, date := none, updated_at := none },
      { _id := 3, task_id := stringOfObjectId 1, start_time := some 100000000,
        end_time := some 300000000, duration_sec := some 200, note := none,
        is_running := false, date := none, updated_at := none },
      { _id := 4, task_id := stringOfObjectId 1, start_time := some 99950000000,
        end_time := none, duration_sec := none, note := none,
        is_running := true, date := none, updated_at := none },
      { _id := 5, task_id := "orphan", start_time := some 99970000000,
        end_time := none, duration_sec := none, note := none,
        is_running := true, date := none, updated_at := none }],
    nextId := 6 }

/-- Claim C3: `report_summary` returns, per task id, the sum of non-null
`duration_sec` values plus the live elapsed seconds of every running entry
(0 when `start_time` is missing), grouped onto the matching row or a fresh
row; a task id appears iff it has a completed or running entry.  In the
concrete example, completed entries of 100 s and 200 s plus a timer running
for 50 s total 350, and an orphaned running timer yields an "Unknown Task"
row. -/
theorem claim_C3 :
    (∀ (s : Store) (now : Nat) (tid : String),
      rowTotal (report_summary s now) tid =
        if s.entries.any
            (fun e => e.task_id == tid && (e.duration_sec.isSome || e.is_running)) then
          some (specCompletedSum s.entries tid + specLiveSum s.entries now tid)
        else none)
    ∧ report_summary summaryExampleStore 100000000000
        = [{ task_id := stringOfObjectId 1, title := "Alpha", total_sec := 350 },
           { task_id := "orphan", title := "Unknown Task", total_sec := 30 }] := by
  constructor
  · intro s now tid
    simp only [report_summary]
    rw [rowTotal_foldl_addLive, rowTotal_map_agg, groupTotal_aggregateDur,
      List.any_filter, List.filter_filter,
      any_ext_entries s.entries _ _ (fun e => Bool.and_comm e.is_running (e.task_id == tid)),
      any_and_or_split s.entries (fun e => e.task_id == tid)
        (fun e => e.duration_sec.isSome) (fun e => e.is_running)]
    by_cases hA : s.entries.any (fun e => e.task_id == tid && e.duration_sec.isSome) = true
    · by_cases hL : s.entries.any (fun e => e.task_id == tid && e.is_running) = true
      · rw [hA, hL, if_pos rfl, if_pos rfl]
        simp [specLiveSum]
      · have hL' := Bool.eq_false_iff.2 hL
        rw [hA, hL', if_neg (by simp), if_pos rfl,
          specLiveSum_eq_zero s.entries now tid hL']
        simp
    · have hA' := Bool.eq_false_iff.2 hA
      by_cases hL : s.entries.any (fun e => e.task_id == tid && e.is_running) = true
      · rw [hA', hL, specCompletedSum_eq_zero s.entries tid hA']
        simp [specLiveSum]
      · have hL' := Bool.eq_false_iff.2 hL
        rw [hA', hL']
        simp
  · decide

end TaskTime
